import Mathlib

/-!
Shallow embedding of `src/unison.py` (a macOS Unison wrapper script).

The script is sequential glue: resolve the console user, check eligibility,
materialize per-target Unison config files from templates, and invoke the
external `unison` tool once per target, mapping outcomes to process exit
codes.  We embed it as pure functions over an explicit environment `Env`
(the world the script reads: resolved console user, filesystem contents,
result of the `which unison` lookup, exit codes of the tool) and an explicit
trace of side effects `Effect` (prints, subprocess invocations, mkdir and
file writes).  Exceptions become an explicit `Exc` sum; `sys.exit(n)` and
uncaught exceptions become the `Outcome` of a run.
-/

namespace UnisonWrap

/-- Python exceptions that the script can raise or observe.
`unisonSync` models `UnisonSyncException` (subclass of `UnisonException`,
carrying `exit_code`); `invalidUnisonTarget` models
`InvalidUnisonTargetException` and `configurationNotFound` models
`ConfigurationNotFoundException` (both subclasses of
`ConfigurationException`); `dataCollection` models `DataCollectionException`;
`ioError` models Python `IOError` with its `errno` and `filename`;
`calledProcessError` models `subprocess.CalledProcessError` (as raised by
`subprocess.check_output` for a nonzero exit); `formatError` models the
`KeyError`/`IndexError`/`ValueError` family that `str.format` raises on a
malformed or unknown replacement field. -/
inductive Exc where
  | dataCollection (msg : String)
  | invalidUnisonTarget (msg : String)
  | configurationNotFound (msg : String)
  | ioError (errno : Nat) (filename : String)
  | calledProcessError (returncode : Int) (cmd : List String)
  | unisonSync (exit_code : Int) (msg : String)
  | formatError
  deriving DecidableEq

/-- Observable side effects of the script, in order of occurrence. -/
inductive Effect where
  | print (msg : String)
  | runProc (cmd : List String)
  | mkdir (path : String)
  | openTrunc (path : String)
  | writeLine (path : String) (line : String)
  deriving DecidableEq

/-- Final outcome of a run of `main`: either `sys.exit code` (falling off the
end of `main` is `exited 0`, the interpreter's normal exit) or an exception
that no handler in the script catches. -/
inductive Outcome where
  | exited (code : Int)
  | uncaught (e : Exc)
  deriving DecidableEq

/-- The world the script reads from.
`consoleUser` is the resolved console user stat `(name?, uid, gid)` as
produced by `SCDynamicStoreCopyConsoleUser` / the `/dev/console` fallback
(`none` = unresolvable); `readFile` returns the lines of a text file or
`none` when opening raises `IOError` errno 2 (file not found); `which` is
the result of `subprocess.check_output(['which', 'unison'])`, already
stripped of its trailing newline, or the nonzero exit code of `which`;
`runUnison target` is the exit code and the combined stdout+stderr of the
`unison` invocation for `target`. -/
structure Env where
  consoleUser : Option String × Nat × Nat
  isDir : String → Bool
  pathExists : String → Bool
  readFile : String → Option (List String)
  which : Except Int String
  runUnison : String → Int × String

/-! ## Configuration constants (module-level constants of `unison.py`).
`os.path.sep` is `/` on the deployment platform, so the `os.path.join`
results are spelled out.  Braces inside string literals are written with
the `\x7b`/`\x7d` escapes. -/

def USER_CONFIG_PATH : String := "/Users/\x7bUSER\x7d/Library/Application Support/Unison"

def TEMPLATE_CONFIG_PATH : String := "/Library/TT/Config/Unison"

def SYNC_TARGET_PATH : String := "/Volumes/\x7bUSER\x7d"

def UNISON_EXTRA_ARGS : List String := ["-silent"]

/-- `IGNORED_EXIT_CODES`: every entry in the source list is commented out,
so the shipped list is empty. -/
def IGNORED_EXIT_CODES : List Int := []

def TEMPLATE_EXTENSION : String := "prfconfig"

def CONFIG_EXTENSION : String := "prf"

def TEMPLATE_CONFIG_TARGETS : List String := ["Dokument", "Skrivbord", "Bibliotek"]

def TEMPLATE_TARGETS_PATH : String := "Targets"

def TEMPLATE_SHARED_CONFIG : String := "Common"

def LOWEST_ALLOWED_USER_ID : Nat := 501

def PROHIBITED_SYNC_USERS : List String := ["root"]

/-! ## Python `str.format` (keyword argument `USER` only)

The script calls `line.format(USER=username)`.  `fmtAux u none l` scans `l`
as Python's formatter does: `{{` and `}}` are escapes for literal braces, a
lone `}` in literal text is an error (`ValueError`), `{` opens a replacement
field read up to the closing `}` (an unterminated field is an error), and a
field is substituted only when its name is exactly `USER` — any other field
raises (`KeyError` for an unknown name, `IndexError` for the empty field).
Conversion/format-spec suffixes (`{USER!r}`, `{USER:>10}`) are rare Python
features the templates do not use; a field whose text is not exactly `USER`
is modelled as an error.  `some` is a successful format, `none` an
exception. -/
def fmtAux (u : String) : Option (List Char) → List Char → Option (List Char)
  | none, [] => some []
  | some _, [] => none
  | none, c :: rest =>
    if c = '\x7b' then
      match rest with
      | [] => none
      | c2 :: rest2 =>
        if c2 = '\x7b' then (fmtAux u none rest2).map (fun s => '\x7b' :: s)
        else fmtAux u (some []) (c2 :: rest2)
    else if c = '\x7d' then
      match rest with
      | [] => none
      | c2 :: rest2 =>
        if c2 = '\x7d' then (fmtAux u none rest2).map (fun s => '\x7d' :: s)
        else none
    else (fmtAux u none rest).map (fun s => c :: s)
  | some acc, c :: rest =>
    if c = '\x7d' then
      if acc.reverse = "USER".data then (fmtAux u none rest).map (fun s => u.data ++ s)
      else none
    else fmtAux u (some (c :: acc)) rest

/-- `s.format(USER=u)` on a whole string. -/
def pyFormatStr (u s : String) : Option String :=
  (fmtAux u none s.data).map fun l => String.mk l

/-- `pat` occurs as a contiguous substring of the second list
(Python's `pat in line` on strings). -/
def containsTok (pat : List Char) : List Char → Bool
  | [] => pat.isEmpty
  | c :: rest => pat.isPrefixOf (c :: rest) || containsTok pat rest

/-- Python `'{USER}' in config_line`. -/
def hasUserToken (line : String) : Bool :=
  containsTok "\x7bUSER\x7d".data line.data

/-- The per-line body of the `create_user_config` write loop:
`if '{USER}' in config_line: config_line = config_line.format(USER=username)`.
`none` models an uncaught `str.format` exception. -/
def processLine (username line : String) : Option String :=
  if hasUserToken line then pyFormatStr username line else some line

/-- `valid_sync_target`: `target in TEMPLATE_CONFIG_TARGETS`. -/
def valid_sync_target (target : String) : Bool :=
  TEMPLATE_CONFIG_TARGETS.contains target

/-- `valid_sync_user`. -/
def valid_sync_user (uid : Nat) (name : String) : Bool :=
  if uid < LOWEST_ALLOWED_USER_ID then false
  else if PROHIBITED_SYNC_USERS.contains name then false
  else true

/-- Message of the `DataCollectionException` (Python renders `None` as the
string `None`; the display of a `None` uid in the unreachable-by-main
branch is abstracted to the numeric uid). -/
def dataCollMsg (nameOpt : Option String) (uid : Nat) : String :=
  "Could not get currently running user, got: " ++
    ((match nameOpt with | some s => s | none => "None") ++ (" (" ++ (toString uid ++ ")")))

/-- `get_current_user_stat`, parameterized by the already-resolved console
user stat tuple (the PyObjC query result, or the `/dev/console` lstat and
passwd lookup).  Raises `DataCollectionException` when the resolved name is
in `['', 'loginwindow', None, u'']`. -/
def get_current_user_stat (stat : Option String × Nat × Nat) : Except Exc (String × Nat × Nat) :=
  match stat with
  | (nameOpt, uid, gid) =>
    if nameOpt = some "" ∨ nameOpt = some "loginwindow" ∨ nameOpt = none then
      Except.error (Exc.dataCollection (dataCollMsg nameOpt uid))
    else
      match nameOpt with
      | some name => Except.ok (name, uid, gid)
      | none => Except.error (Exc.dataCollection (dataCollMsg nameOpt uid))

/-! ## Paths (`os.path.join` with separator `/`) -/

/-- `os.path.join(TEMPLATE_CONFIG_PATH, 'Common.prfconfig')`. -/
def shared_template_path : String :=
  TEMPLATE_CONFIG_PATH ++ ("/" ++ (TEMPLATE_SHARED_CONFIG ++ ("." ++ TEMPLATE_EXTENSION)))

/-- `os.path.join(TEMPLATE_CONFIG_PATH, 'Targets', target + '.prfconfig')`. -/
def target_template_path (target : String) : String :=
  TEMPLATE_CONFIG_PATH ++ ("/" ++ (TEMPLATE_TARGETS_PATH ++ ("/" ++ (target ++ ("." ++ TEMPLATE_EXTENSION)))))

/-! ## `create_user_config` -/

/-- The write loop over one template file's lines: each line has the
`{USER}` substitution applied and is written to the destination.  The
returned `Bool` is `false` when `str.format` raised on some line; the
effect list then holds exactly the writes that happened before the raise. -/
def emitLines (username path : String) : List String → List Effect × Bool
  | [] => ([], true)
  | line :: rest =>
    match processLine username line with
    | none => ([], false)
    | some outLine =>
      let r := emitLines username path rest
      (Effect.writeLine path outLine :: r.1, r.2)

/-- `create_user_config(username, target)`: compute the per-user config dir
(`USER_CONFIG_PATH.format(USER=username)`), `os.mkdir` it when absent, open
the destination `<target>.prf` for truncating write, then stream the shared
template followed by the target template through the `{USER}` substitution.
A missing template file is `IOError` errno 2 carrying that filename; the
destination was already truncated and partially written at that point. -/
def create_user_config (env : Env) (username target : String) : List Effect × Except Exc String :=
  match pyFormatStr username USER_CONFIG_PATH with
  | none => ([], Except.error Exc.formatError)
  | some config_base_path =>
    let config_path := config_base_path ++ ("/" ++ (target ++ ("." ++ CONFIG_EXTENSION)))
    let mkEffs : List Effect :=
      if env.pathExists config_base_path then [] else [Effect.mkdir config_base_path]
    match env.readFile shared_template_path with
    | none =>
      (mkEffs ++ [Effect.openTrunc config_path], Except.error (Exc.ioError 2 shared_template_path))
    | some sharedLines =>
      let s := emitLines username config_path sharedLines
      if s.2 = false then
        (mkEffs ++ Effect.openTrunc config_path :: s.1, Except.error Exc.formatError)
      else
        match env.readFile (target_template_path target) with
        | none =>
          (mkEffs ++ Effect.openTrunc config_path :: s.1,
           Except.error (Exc.ioError 2 (target_template_path target)))
        | some targetLines =>
          let t := emitLines username config_path targetLines
          if t.2 = false then
            (mkEffs ++ Effect.openTrunc config_path :: (s.1 ++ t.1), Except.error Exc.formatError)
          else
            (mkEffs ++ Effect.openTrunc config_path :: (s.1 ++ t.1), Except.ok config_path)

/-! ## `unison_sync` -/

/-- Message of `InvalidUnisonTargetException`. -/
def invalidTargetExcMsg (target : String) : String :=
  "Not a valid sync target: " ++ target

/-- Message of `ConfigurationNotFoundException`. -/
def confNotFoundMsg (target filename : String) : String :=
  "Could not find configuration file for target " ++ (target ++ (": " ++ filename))

/-- Message of `UnisonSyncException` (the rendering of the argv list inside
the backquotes is abstracted to space-separated words). -/
def unisonErrMsg (cmd : List String) (output : String) : String :=
  "Unison `" ++ (String.intercalate " " cmd ++ ("` returned error: \n" ++ output))

/-- `unison_sync(user, target)`.  Note the source order: the
`which unison` subprocess runs FIRST (line 109), and only then is the
target validated against the whitelist (line 111). -/
def unison_sync (env : Env) (user target : String) : List Effect × Except Exc String :=
  let whichEff := Effect.runProc ["which", "unison"]
  match env.which with
  | Except.error code =>
    ([whichEff], Except.error (Exc.calledProcessError code ["which", "unison"]))
  | Except.ok unison_cmd =>
    if valid_sync_target target = false then
      ([whichEff], Except.error (Exc.invalidUnisonTarget (invalidTargetExcMsg target)))
    else
      let c := create_user_config env user target
      match c.2 with
      | Except.error (Exc.ioError errno fname) =>
        if errno = 2 then
          (whichEff :: c.1, Except.error (Exc.configurationNotFound (confNotFoundMsg target fname)))
        else
          (whichEff :: c.1, Except.error (Exc.ioError errno fname))
      | Except.error e => (whichEff :: c.1, Except.error e)
      | Except.ok config_path =>
        let cmd := unison_cmd :: target :: UNISON_EXTRA_ARGS
        let r := env.runUnison target
        let effs := whichEff :: c.1 ++ [Effect.print ("Created config: " ++ config_path), Effect.runProc cmd]
        if r.1 = 0 then (effs, Except.ok r.2)
        else (effs, Except.error (Exc.unisonSync r.1 (unisonErrMsg cmd r.2)))

/-! ## `main` -/

/-- Diagnostic printed before `sys.exit(e.exit_code)` on a non-ignored
Unison exit. -/
def abortMsg (code : Int) (msg : String) : String :=
  "Unison exited with error " ++ (toString code ++ (", aborting sync:\n" ++ msg))

/-- The `for target in iter(TEMPLATE_CONFIG_TARGETS)` loop of `main`, with
its three `except` clauses: `UnisonException` (continue when the carried
exit code is in `IGNORED_EXIT_CODES`, else print and `sys.exit` with it),
`InvalidUnisonTargetException` (`sys.exit(13)`), `ConfigurationException`
(`sys.exit(14)`).  Any other exception propagates out of `main`.  Falling
off the end of the list is a normal interpreter exit with code 0. -/
def runTargets (env : Env) (user : String) : List String → List Effect × Outcome
  | [] => ([], Outcome.exited 0)
  | target :: rest =>
    let r := unison_sync env user target
    let pre := Effect.print ("Running sync for " ++ target) :: r.1
    match r.2 with
    | Except.ok _ =>
      let k := runTargets env user rest
      (pre ++ k.1, k.2)
    | Except.error (Exc.unisonSync code msg) =>
      if IGNORED_EXIT_CODES.contains code then
        let k := runTargets env user rest
        (pre ++ k.1, k.2)
      else
        (pre ++ [Effect.print (abortMsg code msg)], Outcome.exited code)
    | Except.error (Exc.invalidUnisonTarget _) =>
      (pre ++ [Effect.print ("Did not provide a valid Unison target config: " ++ target)],
       Outcome.exited 13)
    | Except.error (Exc.configurationNotFound msg) =>
      (pre ++ [Effect.print msg], Outcome.exited 14)
    | Except.error e => (pre, Outcome.uncaught e)

/-- Notice printed before `sys.exit(11)` for an ineligible user. -/
def notEligibleMsg (name : String) (uid : Nat) : String :=
  "Sync should not run for user: " ++ (name ++ (" (" ++ (toString uid ++ ")")))

/-- `main()`: resolve the console user, eligibility check
(`sys.exit(11)` when ineligible), sync-target directory check
(`sys.exit(12)` when `/Volumes/<user>` is not a directory), then the
per-target loop. -/
def main (env : Env) : List Effect × Outcome :=
  match get_current_user_stat env.consoleUser with
  | Except.error e => ([], Outcome.uncaught e)
  | Except.ok (user_name, user_id, _user_gid) =>
    if valid_sync_user user_id user_name = false then
      ([Effect.print (notEligibleMsg user_name user_id)], Outcome.exited 11)
    else
      match pyFormatStr user_name SYNC_TARGET_PATH with
      | none => ([], Outcome.uncaught Exc.formatError)
      | some sync_target =>
        if env.isDir sync_target = false then
          ([Effect.print ("Target sync directory does not exist: " ++ sync_target)],
           Outcome.exited 12)
        else
          runTargets env user_name TEMPLATE_CONFIG_TARGETS

/-! ## Spec-side comparison definitions

These two definitions follow the WORDS of the specification, not the code;
they exist to compare the code's `str.format`-based substitution against
the spec's "every `{USER}` occurrence replaced, all other characters
byte-identical". -/

/-- Spec-mandated substitution: replace every occurrence of the literal
token `{USER}` by the username, scanning left to right, leaving every
other character untouched. -/
def specReplaceUser (u : String) : List Char → List Char
  | '\x7b' :: 'U' :: 'S' :: 'E' :: 'R' :: '\x7d' :: rest => u.data ++ specReplaceUser u rest
  | c :: rest => c :: specReplaceUser u rest
  | [] => []

/-- `specReplaceUser` lifted to strings. -/
def specReplaceUserStr (u line : String) : String :=
  String.mk (specReplaceUser u line.data)

/-- A line is brace-clean when every brace character in it occurs as part
of a literal `{USER}` token.  On such lines Python's
`line.format(USER=u)` agrees with the spec's substitution. -/
def braceClean : List Char → Bool
  | [] => true
  | '\x7b' :: 'U' :: 'S' :: 'E' :: 'R' :: '\x7d' :: rest => braceClean rest
  | '\x7b' :: _ => false
  | '\x7d' :: _ => false
  | _ :: rest => braceClean rest

/-- Content of the file at `path` after replaying an effect trace on top of
a `prior` content (`none` = the file does not exist).  `openTrunc`
truncates, `writeLine` appends; other effects leave the file alone. -/
def finalContent (path : String) : Option (List String) → List Effect → Option (List String)
  | prior, [] => prior
  | prior, e :: rest =>
    match e with
    | Effect.openTrunc p =>
      finalContent path (if p = path then some [] else prior) rest
    | Effect.writeLine p l =>
      finalContent path (if p = path then some (prior.getD [] ++ [l]) else prior) rest
    | _ => finalContent path prior rest

/-- The per-user config directory, `USER_CONFIG_PATH.format(USER=u)`
spelled out. -/
def user_config_dir (u : String) : String :=
  "/Users/" ++ (u ++ "/Library/Application Support/Unison")

/-- The destination config file `<user config dir>/<target>.prf`. -/
def user_config_file (u target : String) : String :=
  user_config_dir u ++ ("/" ++ (target ++ ("." ++ CONFIG_EXTENSION)))

/-! ## Concrete environments used by witnesses and counterexamples -/

/-- Shared template lines used by the happy-path environment. -/
def sharedLinesOk : List String :=
  ["include common", "root = /Users/\x7bUSER\x7d"]

/-- A fully healthy world: console user `alice` (uid 501), her `/Volumes`
mount present, all templates present and well-formed, `unison` installed
and exiting 0 for every target. -/
def envAllOk : Env where
  consoleUser := (some "alice", 501, 20)
  isDir := fun p => p = "/Volumes/alice"
  pathExists := fun _ => true
  readFile := fun p =>
    if p = shared_template_path then some sharedLinesOk
    else if p = target_template_path "Dokument" then some ["path = /Volumes/\x7bUSER\x7d/Dokument"]
    else if p = target_template_path "Skrivbord" then some ["path = Skrivbord"]
    else if p = target_template_path "Bibliotek" then some ["path = Bibliotek"]
    else none
  which := Except.ok "/usr/bin/unison"
  runUnison := fun _ => (0, "sync done")

/-- Healthy world, but the console user is the system account `daemon`
with uid 42. -/
def envIneligible : Env :=
  { envAllOk with consoleUser := (some "daemon", 42, 42) }

/-- Healthy world, but the shared template has a line holding both the
`{USER}` token and a doubled brace. -/
def envBraces : Env :=
  { envAllOk with
    readFile := fun p =>
      if p = shared_template_path then some ["x \x7bUSER\x7d a\x7b\x7bb"]
      else if p = target_template_path "Dokument" then some ["path = Dokument"]
      else none }

/-- Healthy world, but `unison` exits 3 for every target. -/
def envUnisonFails : Env :=
  { envAllOk with runUnison := fun _ => (3, "fatal unison error") }

/-- Healthy world, but the target template of `Skrivbord` (the second
configured target) is missing. -/
def envSkrivbordMissing : Env :=
  { envAllOk with
    readFile := fun p =>
      if p = target_template_path "Skrivbord" then none else envAllOk.readFile p }

/-- Healthy world, but `/Volumes/alice` is absent. -/
def envNoMount : Env :=
  { envAllOk with isDir := fun _ => false }

/-- Healthy world, but the console user cannot be resolved. -/
def envNoUser : Env :=
  { envAllOk with consoleUser := (none, 0, 0) }

/-- Healthy world, but `unison` is not installed: `which unison` exits 1. -/
def envNoUnison : Env :=
  { envAllOk with which := Except.error 1 }

/-- Healthy world, but the shared template has a line holding both the
`{USER}` token and a foreign `{PATH}` token. -/
def envForeignField : Env :=
  { envAllOk with
    readFile := fun p =>
      if p = shared_template_path then some ["path = \x7bUSER\x7d/\x7bPATH\x7d"]
      else if p = target_template_path "Dokument" then some ["path = Dokument"]
      else none }

/-! ## Helper lemmas about the format model -/

theorem pyFormatStr_USER_CONFIG (u : String) :
    pyFormatStr u USER_CONFIG_PATH = some (user_config_dir u) := rfl

theorem pyFormatStr_SYNC_TARGET (u : String) :
    pyFormatStr u SYNC_TARGET_PATH = some ("/Volumes/" ++ u) := by
  show some (String.mk ('/':: 'V':: 'o':: 'l':: 'u':: 'm':: 'e':: 's':: '/'::(u.data ++ []))) =
       some ("/Volumes/" ++ u)
  rw [List.append_nil]
  rfl

theorem braceClean_lit_cons (c : Char) (rest : List Char) (hc1 : c ≠ '\x7b') (hc2 : c ≠ '\x7d') :
    braceClean (c :: rest) = braceClean rest := by
  rw [braceClean.eq_def]
  split
  · next _ heq => exact absurd heq (by simp)
  · next _ r2 heq => injection heq with h1 h2; exact (hc1 h1).elim
  · next _ t hne heq => injection heq with h1 h2; exact (hc1 h1).elim
  · next _ t heq => injection heq with h1 h2; exact (hc2 h1).elim
  · next _ hd r2 hx1 hx2 hx3 heq =>
      injection heq with h1 h2; subst h2; rfl

theorem specReplaceUser_lit_cons (u : String) (c : Char) (rest : List Char) (hc1 : c ≠ '\x7b') :
    specReplaceUser u (c :: rest) = c :: specReplaceUser u rest := by
  rw [specReplaceUser.eq_def]
  split
  · next _ r2 heq => injection heq with h1 h2; exact (hc1 h1).elim
  · next _ c2 r2 hne heq => injection heq with h1 h2; subst h1; subst h2; rfl
  · next _ heq => exact absurd heq (by simp)

theorem fmtAux_lit_cons (u : String) (c : Char) (rest : List Char)
    (hc1 : c ≠ '\x7b') (hc2 : c ≠ '\x7d') :
    fmtAux u none (c :: rest) = (fmtAux u none rest).map (fun s => c :: s) := by
  rw [fmtAux.eq_def]
  simp [hc1, hc2]

theorem fmtAux_user_cons (u : String) (rest : List Char) :
    fmtAux u none ('\x7b':: 'U':: 'S':: 'E':: 'R':: '\x7d'::rest) =
      (fmtAux u none rest).map (fun s => u.data ++ s) := by
  simp [fmtAux]

theorem braceClean_user_cons (rest : List Char) :
    braceClean ('\x7b':: 'U':: 'S':: 'E':: 'R':: '\x7d'::rest) = braceClean rest := by
  simp [braceClean]

theorem specReplaceUser_user_cons (u : String) (rest : List Char) :
    specReplaceUser u ('\x7b':: 'U':: 'S':: 'E':: 'R':: '\x7d'::rest) =
      u.data ++ specReplaceUser u rest := by
  simp [specReplaceUser]

/-- A line without the `{USER}` token is left untouched by the
spec-mandated substitution. -/
theorem specReplaceUser_no_token (u : String) (l : List Char)
    (h : containsTok "\x7bUSER\x7d".data l = false) : specReplaceUser u l = l := by
  induction l using specReplaceUser.induct u with
  | case1 rest ih => simp [containsTok, List.isPrefixOf] at h
  | case2 c rest hne ih =>
      rw [containsTok] at h
      simp only [Bool.or_eq_false_iff] at h
      rw [specReplaceUser.eq_def]
      split
      · next _ rest2 heq =>
          injection heq with h1 h2
          exact (hne rest2 h1 h2).elim
      · next _ c2 rest2 hne2 heq =>
          injection heq with h1 h2
          subst h1
          subst h2
          rw [ih h.2]
      · next _ heq => exact absurd heq (by simp)
  | case3 => rfl

/-- On a brace-clean line, Python's `format(USER=u)` succeeds and agrees
with the spec-mandated substitution. -/
theorem fmtAux_braceClean (u : String) (l : List Char) (h : braceClean l = true) :
    fmtAux u none l = some (specReplaceUser u l) := by
  induction l using braceClean.induct with
  | case1 => rfl
  | case2 rest ih =>
      rw [braceClean_user_cons] at h
      rw [fmtAux_user_cons, ih h, specReplaceUser_user_cons]
      rfl
  | case3 a hne =>
      exfalso
      rw [braceClean.eq_def] at h
      split at h <;> simp_all [eq_comm]
  | case4 a =>
      exfalso
      rw [braceClean.eq_def] at h
      split at h <;> simp_all [eq_comm]
  | case5 a b hne h1 h2 ih =>
      rw [braceClean_lit_cons a b h1 h2] at h
      rw [fmtAux_lit_cons u a b h1 h2, ih h, specReplaceUser_lit_cons u a b h1]
      rfl

/-- `processLine` on a line meeting the brace-cleanliness side condition
computes exactly the spec-mandated substitution. -/
theorem processLine_spec (u line : String)
    (h : hasUserToken line = true → braceClean line.data = true) :
    processLine u line = some (specReplaceUserStr u line) := by
  by_cases ht : hasUserToken line = true
  · rw [processLine, if_pos ht, pyFormatStr, fmtAux_braceClean u line.data (h ht)]
    rfl
  · rw [processLine, if_neg ht]
    rw [Bool.not_eq_true] at ht
    rw [specReplaceUserStr, specReplaceUser_no_token u line.data ht]

/-! ## Helper lemmas about `create_user_config` and the effect trace -/

/-- Under the cleanliness side condition `emitLines` succeeds and writes
exactly the spec-substituted lines. -/
theorem emitLines_clean (u p : String) (lines : List String)
    (h : ∀ l ∈ lines, hasUserToken l = true → braceClean l.data = true) :
    emitLines u p lines =
      (lines.map fun l => Effect.writeLine p (specReplaceUserStr u l), true) := by
  induction lines with
  | nil => rfl
  | cons l ls ih =>
      simp only [emitLines]
      rw [processLine_spec u l (h l (List.mem_cons_self l ls))]
      rw [ih fun x hx hxt => h x (List.mem_cons_of_mem l hx) hxt]
      simp

/-- The `mkdir`-if-absent effects of `create_user_config`. -/
def mkdirEffs (env : Env) (u : String) : List Effect :=
  if env.pathExists (user_config_dir u) then [] else [Effect.mkdir (user_config_dir u)]

/-- `create_user_config` when both templates are present and brace-clean:
it overwrites the destination with the substituted shared lines followed by
the substituted target lines and returns the destination path. -/
theorem create_user_config_clean (env : Env) (u target : String)
    (sLines tLines : List String)
    (hs : env.readFile shared_template_path = some sLines)
    (ht : env.readFile (target_template_path target) = some tLines)
    (hclean : ∀ l ∈ sLines ++ tLines, hasUserToken l = true → braceClean l.data = true) :
    create_user_config env u target =
      (mkdirEffs env u ++ Effect.openTrunc (user_config_file u target) ::
        ((sLines ++ tLines).map fun l =>
          Effect.writeLine (user_config_file u target) (specReplaceUserStr u l)),
       Except.ok (user_config_file u target)) := by
  have hscl : ∀ l ∈ sLines, hasUserToken l = true → braceClean l.data = true :=
    fun l hl => hclean l (List.mem_append_left _ hl)
  have htcl : ∀ l ∈ tLines, hasUserToken l = true → braceClean l.data = true :=
    fun l hl => hclean l (List.mem_append_right _ hl)
  simp only [create_user_config, pyFormatStr_USER_CONFIG, hs, ht,
    emitLines_clean u _ sLines hscl, emitLines_clean u _ tLines htcl]
  simp [mkdirEffs, user_config_file]

/-- `create_user_config` when the shared template is fine but the target
template is missing: the destination has already been truncated and filled
with the substituted shared lines, and the failure is `IOError` errno 2
carrying the target template path. -/
theorem create_user_config_target_missing (env : Env) (u target : String)
    (sLines : List String)
    (hs : env.readFile shared_template_path = some sLines)
    (hscl : ∀ l ∈ sLines, hasUserToken l = true → braceClean l.data = true)
    (ht : env.readFile (target_template_path target) = none) :
    create_user_config env u target =
      (mkdirEffs env u ++ Effect.openTrunc (user_config_file u target) ::
        (sLines.map fun l =>
          Effect.writeLine (user_config_file u target) (specReplaceUserStr u l)),
       Except.error (Exc.ioError 2 (target_template_path target))) := by
  simp only [create_user_config, pyFormatStr_USER_CONFIG, hs, ht,
    emitLines_clean u _ sLines hscl]
  simp [mkdirEffs, user_config_file]

/-- Replaying a concatenated trace. -/
theorem finalContent_append (path : String) (prior : Option (List String))
    (xs ys : List Effect) :
    finalContent path prior (xs ++ ys) = finalContent path (finalContent path prior xs) ys := by
  induction xs generalizing prior with
  | nil => rfl
  | cons e xs ih => cases e <;> simp [finalContent, ih]

/-- Replaying a pure sequence of writes to `path`. -/
theorem finalContent_writeList (path : String) (ws : List String) (acc : List String) :
    finalContent path (some acc) (ws.map (Effect.writeLine path)) = some (acc ++ ws) := by
  induction ws generalizing acc with
  | nil => simp [finalContent]
  | cons w ws ih => simp [finalContent, ih]

/-- `mkdir` effects do not change any file's content. -/
theorem finalContent_mkdirEffs (env : Env) (u : String) (path : String)
    (prior : Option (List String)) :
    finalContent path prior (mkdirEffs env u) = prior := by
  rw [mkdirEffs]
  split <;> rfl

/-! ## Helper lemmas about `unison_sync` and the orchestration loop -/

theorem unison_sync_which_fails (env : Env) (user target : String) (code : Int)
    (hw : env.which = Except.error code) :
    unison_sync env user target =
      ([Effect.runProc ["which", "unison"]],
       Except.error (Exc.calledProcessError code ["which", "unison"])) := by
  simp only [unison_sync]
  rw [hw]

theorem unison_sync_invalid_target (env : Env) (user target cmd : String)
    (hw : env.which = Except.ok cmd) (hv : valid_sync_target target = false) :
    unison_sync env user target =
      ([Effect.runProc ["which", "unison"]],
       Except.error (Exc.invalidUnisonTarget (invalidTargetExcMsg target))) := by
  simp only [unison_sync]
  rw [hw]
  simp [hv]

/-- `unison_sync` when the target template is missing: the `IOError` errno 2
from `create_user_config` is converted into `ConfigurationNotFoundException`
naming the target and the missing file. -/
theorem unison_sync_conf_missing (env : Env) (user target cmd : String)
    (sLines : List String)
    (hw : env.which = Except.ok cmd) (hv : valid_sync_target target = true)
    (hs : env.readFile shared_template_path = some sLines)
    (hscl : ∀ l ∈ sLines, hasUserToken l = true → braceClean l.data = true)
    (ht : env.readFile (target_template_path target) = none) :
    unison_sync env user target =
      (Effect.runProc ["which", "unison"] ::
        (mkdirEffs env user ++ Effect.openTrunc (user_config_file user target) ::
          (sLines.map fun l =>
            Effect.writeLine (user_config_file user target) (specReplaceUserStr user l))),
       Except.error (Exc.configurationNotFound
         (confNotFoundMsg target (target_template_path target)))) := by
  simp only [unison_sync]
  rw [hw]
  simp only [hv, Bool.true_eq_false, if_false,
    create_user_config_target_missing env user target sLines hs hscl ht]
  simp

theorem runTargets_nil (env : Env) (user : String) :
    runTargets env user [] = ([], Outcome.exited 0) := rfl

theorem runTargets_cons_ok (env : Env) (user target : String) (rest : List String)
    (out : String) (h : (unison_sync env user target).2 = Except.ok out) :
    runTargets env user (target :: rest) =
      (Effect.print ("Running sync for " ++ target) :: (unison_sync env user target).1
         ++ (runTargets env user rest).1,
       (runTargets env user rest).2) := by
  simp only [runTargets, h]

theorem runTargets_cons_syncFail (env : Env) (user target : String) (rest : List String)
    (code : Int) (msg : String)
    (h : (unison_sync env user target).2 = Except.error (Exc.unisonSync code msg)) :
    runTargets env user (target :: rest) =
      if IGNORED_EXIT_CODES.contains code then
        (Effect.print ("Running sync for " ++ target) :: (unison_sync env user target).1
           ++ (runTargets env user rest).1,
         (runTargets env user rest).2)
      else
        (Effect.print ("Running sync for " ++ target) :: (unison_sync env user target).1
           ++ [Effect.print (abortMsg code msg)],
         Outcome.exited code) := by
  simp only [runTargets, h]

theorem runTargets_cons_confNotFound (env : Env) (user target : String) (rest : List String)
    (msg : String)
    (h : (unison_sync env user target).2 = Except.error (Exc.configurationNotFound msg)) :
    runTargets env user (target :: rest) =
      (Effect.print ("Running sync for " ++ target) :: (unison_sync env user target).1
         ++ [Effect.print msg],
       Outcome.exited 14) := by
  simp only [runTargets, h]

theorem runTargets_cons_uncaughtCPE (env : Env) (user target : String) (rest : List String)
    (code : Int) (cmd : List String)
    (h : (unison_sync env user target).2 = Except.error (Exc.calledProcessError code cmd)) :
    runTargets env user (target :: rest) =
      (Effect.print ("Running sync for " ++ target) :: (unison_sync env user target).1,
       Outcome.uncaught (Exc.calledProcessError code cmd)) := by
  simp only [runTargets, h]

/-- `get_current_user_stat` succeeds on a resolved, non-sentinel name. -/
theorem get_current_user_stat_ok (name : String) (uid gid : Nat)
    (h1 : name ≠ "") (h2 : name ≠ "loginwindow") :
    get_current_user_stat (some name, uid, gid) = Except.ok (name, uid, gid) := by
  simp [get_current_user_stat, h1, h2]

/-! ## Claims -/

/-- C1, counterexample: with the console user `daemon` (uid 42), who is
ineligible, `main` prints the notice but exits with code 11, not 0 — the
claim's "terminates with process exit code 0" is false on the code. -/
theorem C1_cex_ineligible_exits_nonzero :
    valid_sync_user 42 "daemon" = false ∧
    main envIneligible = ([Effect.print (notEligibleMsg "daemon" 42)], Outcome.exited 11) ∧
    (Outcome.exited 11 : Outcome) ≠ Outcome.exited 0 :=
  ⟨by decide, by decide, by decide⟩

/-- C1, amended: when the resolved console user is ineligible, `main`
prints a notice and terminates with process exit code 11 (the dedicated
"user not eligible" code), attempting no further work. -/
theorem C1_ineligible_prints_and_exits_11 (env : Env) (name : String) (uid gid : Nat)
    (hstat : env.consoleUser = (some name, uid, gid))
    (h1 : name ≠ "") (h2 : name ≠ "loginwindow")
    (hin : valid_sync_user uid name = false) :
    main env = ([Effect.print (notEligibleMsg name uid)], Outcome.exited 11) := by
  simp only [main, hstat, get_current_user_stat_ok name uid gid h1 h2, hin]
  rfl

/-- C1, witness for the amended theorem. -/
theorem C1_ineligible_prints_and_exits_11_witness :
    main envIneligible = ([Effect.print (notEligibleMsg "daemon" 42)], Outcome.exited 11) :=
  C1_ineligible_prints_and_exits_11 envIneligible "daemon" 42 42 rfl
    (by decide) (by decide) (by decide)

/-- C2, counterexample: for the invalid target `Movies`, `unison_sync`
does raise `InvalidUnisonTargetException`, but only after the
`which unison` subprocess has run — refuting "invoking no subprocess
before failing". -/
theorem C2_cex_which_runs_before_invalid_target :
    (unison_sync envAllOk "alice" "Movies").2 =
        Except.error (Exc.invalidUnisonTarget (invalidTargetExcMsg "Movies")) ∧
      Effect.runProc ["which", "unison"] ∈ (unison_sync envAllOk "alice" "Movies").1 :=
  ⟨rfl, by decide⟩

/-- C2, amended: for every target not in the static whitelist, provided the
`which unison` lookup succeeds, `unison_sync` fails with
`InvalidUnisonTargetException` having performed no filesystem effect and
run no subprocess other than the `which unison` executable lookup itself
(when that lookup fails, a `CalledProcessError` propagates instead). -/
theorem C2_invalid_target_only_which_ran (env : Env) (user target cmd : String)
    (hw : env.which = Except.ok cmd) (hv : valid_sync_target target = false) :
    unison_sync env user target =
      ([Effect.runProc ["which", "unison"]],
       Except.error (Exc.invalidUnisonTarget (invalidTargetExcMsg target))) :=
  unison_sync_invalid_target env user target cmd hw hv

/-- C2, witness for the amended theorem. -/
theorem C2_invalid_target_only_which_ran_witness :
    unison_sync envAllOk "alice" "Movies" =
      ([Effect.runProc ["which", "unison"]],
       Except.error (Exc.invalidUnisonTarget (invalidTargetExcMsg "Movies"))) :=
  C2_invalid_target_only_which_ran envAllOk "alice" "Movies" "/usr/bin/unison" rfl (by decide)

/-- C5: `valid_sync_user` returns false for every uid below
`LOWEST_ALLOWED_USER_ID` regardless of name, false for every uid when the
name is in the deny-list, and true for every other combination. -/
theorem C5_eligibility_policy (uid : Nat) (name : String) :
    (uid < LOWEST_ALLOWED_USER_ID → valid_sync_user uid name = false) ∧
    (name ∈ PROHIBITED_SYNC_USERS → valid_sync_user uid name = false) ∧
    (LOWEST_ALLOWED_USER_ID ≤ uid → name ∉ PROHIBITED_SYNC_USERS →
      valid_sync_user uid name = true) := by
  refine ⟨fun h => by simp [valid_sync_user, h], fun h => ?_, fun h1 h2 => ?_⟩
  · have hr : name = "root" := by simpa [PROHIBITED_SYNC_USERS] using h
    subst hr
    rw [valid_sync_user]
    split
    · rfl
    · decide
  · have hne : name ≠ "root" := by simpa [PROHIBITED_SYNC_USERS] using h2
    simp [valid_sync_user, Nat.not_lt.mpr h1, PROHIBITED_SYNC_USERS, hne]

/-- C5, witness. -/
theorem C5_eligibility_policy_witness :
    valid_sync_user 100 "alice" = false ∧ valid_sync_user 777 "root" = false ∧
      valid_sync_user 501 "alice" = true :=
  ⟨(C5_eligibility_policy 100 "alice").1 (by decide),
   (C5_eligibility_policy 777 "root").2.1 (by decide),
   (C5_eligibility_policy 501 "alice").2.2 (by decide) (by decide)⟩

/-- C7: when the per-user mount directory `/Volumes/<user>` is not a
directory, `main` terminates with exit code 12, and its whole effect trace
is the single diagnostic print — so no config file was written and no
subprocess was invoked. -/
theorem C7_missing_mount_exits_12 (env : Env) (name : String) (uid gid : Nat)
    (hstat : env.consoleUser = (some name, uid, gid))
    (h1 : name ≠ "") (h2 : name ≠ "loginwindow")
    (helig : valid_sync_user uid name = true)
    (hdir : env.isDir ("/Volumes/" ++ name) = false) :
    main env =
      ([Effect.print ("Target sync directory does not exist: " ++ ("/Volumes/" ++ name))],
       Outcome.exited 12) := by
  simp only [main, hstat, get_current_user_stat_ok name uid gid h1 h2, helig,
    pyFormatStr_SYNC_TARGET, hdir]
  rfl

/-- C7, witness. -/
theorem C7_missing_mount_exits_12_witness :
    main envNoMount =
      ([Effect.print ("Target sync directory does not exist: " ++ ("/Volumes/" ++ "alice"))],
       Outcome.exited 12) :=
  C7_missing_mount_exits_12 envNoMount "alice" 501 20 rfl (by decide) (by decide)
    (by decide) rfl

/-- C8: `get_current_user_stat` fails with `DataCollectionException`
exactly when the resolved name is the empty string, the `loginwindow`
placeholder, or unresolvable (`none`); and any such failure propagates out
of `main` uncaught (hard stop, no retry, no per-target handling). -/
theorem C8_identity_failure_iff_sentinel :
    (∀ stat : Option String × Nat × Nat,
      (∃ msg, get_current_user_stat stat = Except.error (Exc.dataCollection msg)) ↔
        (stat.1 = some "" ∨ stat.1 = some "loginwindow" ∨ stat.1 = none)) ∧
    (∀ (env : Env) (e : Exc),
      get_current_user_stat env.consoleUser = Except.error e →
        main env = ([], Outcome.uncaught e)) := by
  constructor
  · rintro ⟨nameOpt, uid, gid⟩
    constructor
    · rintro ⟨msg, hmsg⟩
      by_cases hc : nameOpt = some "" ∨ nameOpt = some "loginwindow" ∨ nameOpt = none
      · exact hc
      · simp only [get_current_user_stat] at hmsg
        rw [if_neg hc] at hmsg
        cases nameOpt with
        | none => exact absurd (Or.inr (Or.inr rfl)) hc
        | some n => exact absurd hmsg (by simp)
    · intro h
      refine ⟨dataCollMsg nameOpt uid, ?_⟩
      simp only [get_current_user_stat]
      rw [if_pos h]
  · intro env e h
    simp [main, h]

/-- C8, witness. -/
theorem C8_identity_failure_iff_sentinel_witness :
    (∃ msg, get_current_user_stat (some "loginwindow", 501, 20) =
      Except.error (Exc.dataCollection msg)) ∧
    main envNoUser = ([], Outcome.uncaught (Exc.dataCollection (dataCollMsg none 0))) :=
  ⟨(C8_identity_failure_iff_sentinel.1 (some "loginwindow", 501, 20)).mpr
      (Or.inr (Or.inl rfl)),
   C8_identity_failure_iff_sentinel.2 envNoUser
      (Exc.dataCollection (dataCollMsg none 0)) rfl⟩

/-- C9: when the `which unison` lookup fails, the resulting
`CalledProcessError` is not caught by any of the per-target handlers of the
orchestration loop: the run ends with an uncaught exception after the first
loop iteration, and no subsequent target is attempted. -/
theorem C9_missing_tool_uncaught (env : Env) (user target : String) (rest : List String)
    (code : Int) (hw : env.which = Except.error code) :
    runTargets env user (target :: rest) =
      ([Effect.print ("Running sync for " ++ target), Effect.runProc ["which", "unison"]],
       Outcome.uncaught (Exc.calledProcessError code ["which", "unison"])) := by
  rw [runTargets_cons_uncaughtCPE env user target rest code ["which", "unison"]
    (by rw [unison_sync_which_fails env user target code hw])]
  rw [unison_sync_which_fails env user target code hw]

/-- C9, witness. -/
theorem C9_missing_tool_uncaught_witness :
    runTargets envNoUnison "alice" ("Dokument" :: ["Skrivbord", "Bibliotek"]) =
      ([Effect.print ("Running sync for " ++ "Dokument"), Effect.runProc ["which", "unison"]],
       Outcome.uncaught (Exc.calledProcessError 1 ["which", "unison"])) :=
  C9_missing_tool_uncaught envNoUnison "alice" "Dokument" ["Skrivbord", "Bibliotek"] 1 rfl

/-- C4: in the per-target loop, a tool failure whose exit code is in
`IGNORED_EXIT_CODES` lets the loop continue with the next target, while a
(necessarily nonzero) exit code outside that set terminates the whole run
with that code as the process exit code, attempting no further target; and
the shipped ignorable set is empty, so every nonzero tool exit aborts. -/
theorem C4_ignorable_exit_code_policy (env : Env) (user target : String)
    (rest : List String) (code : Int) (msg : String)
    (h : (unison_sync env user target).2 = Except.error (Exc.unisonSync code msg)) :
    (runTargets env user (target :: rest) =
      if IGNORED_EXIT_CODES.contains code then
        (Effect.print ("Running sync for " ++ target) :: (unison_sync env user target).1
           ++ (runTargets env user rest).1,
         (runTargets env user rest).2)
      else
        (Effect.print ("Running sync for " ++ target) :: (unison_sync env user target).1
           ++ [Effect.print (abortMsg code msg)],
         Outcome.exited code)) ∧
    IGNORED_EXIT_CODES = [] :=
  ⟨runTargets_cons_syncFail env user target rest code msg h, rfl⟩

/-- C4, witness: `unison` exits 3 on `Dokument`; the run stops there with
process exit code 3 and `Skrivbord` is never attempted. -/
theorem C4_ignorable_exit_code_policy_witness :
    runTargets envUnisonFails "alice" ("Dokument" :: ["Skrivbord"]) =
      (Effect.print ("Running sync for " ++ "Dokument") ::
         (unison_sync envUnisonFails "alice" "Dokument").1
         ++ [Effect.print (abortMsg 3
              (unisonErrMsg ["/usr/bin/unison", "Dokument", "-silent"] "fatal unison error"))],
       Outcome.exited 3) := by
  rw [(C4_ignorable_exit_code_policy envUnisonFails "alice" "Dokument" ["Skrivbord"] 3
    (unisonErrMsg ["/usr/bin/unison", "Dokument", "-silent"] "fatal unison error") rfl).1]
  decide

/-- C10: substitution runs only on lines containing the literal `{USER}`;
such a line is passed whole through `str.format`, so a `{USER}` line that
also holds a foreign replacement field makes `create_user_config` raise an
uncaught format exception, which escapes the orchestration loop outside
the defined exit-code taxonomy, while a line without `{USER}` passes
through unchanged even when it contains braces. -/
theorem C10_format_whole_line_semantics :
    (∀ u line, hasUserToken line = false → processLine u line = some line) ∧
    (∀ u line, hasUserToken line = true → processLine u line = pyFormatStr u line) ∧
    processLine "alice" "path = \x7bUSER\x7d/\x7bPATH\x7d" = none ∧
    (main envForeignField).2 = Outcome.uncaught Exc.formatError :=
  ⟨fun u line h => by simp [processLine, h],
   fun u line h => by simp [processLine, h],
   rfl,
   by decide⟩

/-- C10, witness: a braceless line and a brace-bearing line without
`{USER}` both pass through unchanged; a plain `{USER}` line is formatted. -/
theorem C10_format_whole_line_semantics_witness :
    processLine "bob" "other = \x7bPATH\x7d" = some "other = \x7bPATH\x7d" ∧
    processLine "bob" "root = /Users/\x7bUSER\x7d" =
      pyFormatStr "bob" "root = /Users/\x7bUSER\x7d" :=
  ⟨C10_format_whole_line_semantics.1 "bob" "other = \x7bPATH\x7d" (by decide),
   C10_format_whole_line_semantics.2.1 "bob" "root = /Users/\x7bUSER\x7d" (by decide)⟩

/-- C6: when the target template of some target is missing, every earlier
target is fully processed (hypothesis `hpre` records their successful
syncs, and their effects remain in the trace), the failing target's
materialization fails with `ConfigurationNotFoundException` naming the
target and the missing file (distinguishable, via `Exc`, from plain
`ioError` and from `invalidUnisonTarget`), the process exits with code 14,
and no later target contributes anything to the run. -/
theorem C6_template_missing_aborts_14 (env : Env) (user cmd : String)
    (pre rest : List String) (target : String) (sLines : List String)
    (hpre : ∀ t ∈ pre, ∃ out, (unison_sync env user t).2 = Except.ok out)
    (hw : env.which = Except.ok cmd)
    (hv : valid_sync_target target = true)
    (hs : env.readFile shared_template_path = some sLines)
    (hscl : ∀ l ∈ sLines, hasUserToken l = true → braceClean l.data = true)
    (ht : env.readFile (target_template_path target) = none) :
    (unison_sync env user target).2 =
      Except.error (Exc.configurationNotFound
        (confNotFoundMsg target (target_template_path target))) ∧
    runTargets env user (pre ++ target :: rest) =
      ((pre.map fun t =>
          Effect.print ("Running sync for " ++ t) :: (unison_sync env user t).1).flatten
        ++ (Effect.print ("Running sync for " ++ target) :: (unison_sync env user target).1
             ++ [Effect.print (confNotFoundMsg target (target_template_path target))]),
       Outcome.exited 14) := by
  have hks : (unison_sync env user target).2 =
      Except.error (Exc.configurationNotFound
        (confNotFoundMsg target (target_template_path target))) := by
    rw [unison_sync_conf_missing env user target cmd sLines hw hv hs hscl ht]
  refine ⟨hks, ?_⟩
  induction pre with
  | nil =>
      simp only [List.nil_append, List.map_nil, List.flatten]
      rw [runTargets_cons_confNotFound env user target rest _ hks]
  | cons t pre ih =>
      obtain ⟨out, hout⟩ := hpre t (List.mem_cons_self t pre)
      rw [List.cons_append, runTargets_cons_ok env user t _ out hout,
        ih fun x hx => hpre x (List.mem_cons_of_mem t hx)]
      simp [List.append_assoc]

/-- C6, witness: with the `Skrivbord` template missing, `Dokument` is
synced, the run exits 14 after `Skrivbord`, and `Bibliotek` never runs. -/
theorem C6_template_missing_aborts_14_witness :
    runTargets envSkrivbordMissing "alice" (["Dokument"] ++ "Skrivbord" :: ["Bibliotek"]) =
      (((["Dokument"].map fun t =>
          Effect.print ("Running sync for " ++ t) ::
            (unison_sync envSkrivbordMissing "alice" t).1).flatten
        ++ (Effect.print ("Running sync for " ++ "Skrivbord") ::
              (unison_sync envSkrivbordMissing "alice" "Skrivbord").1
             ++ [Effect.print
                  (confNotFoundMsg "Skrivbord" (target_template_path "Skrivbord"))])),
       Outcome.exited 14) :=
  (C6_template_missing_aborts_14 envSkrivbordMissing "alice" "/usr/bin/unison"
    ["Dokument"] ["Bibliotek"] "Skrivbord" sharedLinesOk
    (by
      intro t htm
      rw [List.mem_singleton] at htm
      subst htm
      exact ⟨"sync done", rfl⟩)
    rfl (by decide) rfl (by decide) rfl).2

/-- C3, counterexample: a shared-template line holding both `{USER}` and a
doubled brace is rewritten by `str.format` (`a{{b` becomes `a{b`), so the
materialized content is NOT the templates with only `{USER}` replaced and
all other characters byte-identical, refuting the claim's content
equation. -/
theorem C3_cex_braces_not_byte_identical :
    (create_user_config envBraces "alice" "Dokument").2 =
        Except.ok (user_config_file "alice" "Dokument") ∧
    finalContent (user_config_file "alice" "Dokument") none
        (create_user_config envBraces "alice" "Dokument").1 =
      some ["x alice a\x7bb", "path = Dokument"] ∧
    finalContent (user_config_file "alice" "Dokument") none
        (create_user_config envBraces "alice" "Dokument").1 ≠
      some ((["x \x7bUSER\x7d a\x7b\x7bb"] ++ ["path = Dokument"]).map
        (specReplaceUserStr "alice")) :=
  ⟨rfl, by decide, by decide⟩

/-- C3, amended: for every username and valid target whose two template
files exist, provided every template line containing `{USER}` holds no
brace characters beyond its `{USER}` tokens, `create_user_config` leaves
the destination file's content equal to the shared template's lines
followed by the target template's lines with every `{USER}` replaced by
the username and all other characters untouched — regardless of any prior
content of the destination (full overwrite). -/
theorem C3_materialized_content (env : Env) (u target : String)
    (sLines tLines : List String)
    (hs : env.readFile shared_template_path = some sLines)
    (ht : env.readFile (target_template_path target) = some tLines)
    (hclean : ∀ l ∈ sLines ++ tLines, hasUserToken l = true → braceClean l.data = true) :
    (create_user_config env u target).2 = Except.ok (user_config_file u target) ∧
    ∀ prior : Option (List String),
      finalContent (user_config_file u target) prior (create_user_config env u target).1 =
        some ((sLines ++ tLines).map (specReplaceUserStr u)) := by
  rw [create_user_config_clean env u target sLines tLines hs ht hclean]
  refine ⟨rfl, fun prior => ?_⟩
  rw [finalContent_append, finalContent_mkdirEffs]
  have hmm : ((sLines ++ tLines).map fun l =>
      Effect.writeLine (user_config_file u target) (specReplaceUserStr u l)) =
      ((sLines ++ tLines).map (specReplaceUserStr u)).map
        (Effect.writeLine (user_config_file u target)) := by
    rw [List.map_map]
    rfl
  simp only [finalContent, hmm, if_true]
  rw [finalContent_writeList]
  rfl

/-- C3, witness for the amended theorem: materializing `Dokument` for
`alice` over a stale prior file yields exactly the substituted template
lines, with no residue of the prior content. -/
theorem C3_materialized_content_witness :
    (create_user_config envAllOk "alice" "Dokument").2 =
        Except.ok (user_config_file "alice" "Dokument") ∧
    finalContent (user_config_file "alice" "Dokument") (some ["старое", "stale line"])
        (create_user_config envAllOk "alice" "Dokument").1 =
      some ((sharedLinesOk ++ ["path = /Volumes/\x7bUSER\x7d/Dokument"]).map
        (specReplaceUserStr "alice")) :=
  ⟨(C3_materialized_content envAllOk "alice" "Dokument" sharedLinesOk
      ["path = /Volumes/\x7bUSER\x7d/Dokument"] rfl rfl (by decide)).1,
   (C3_materialized_content envAllOk "alice" "Dokument" sharedLinesOk
      ["path = /Volumes/\x7bUSER\x7d/Dokument"] rfl rfl (by decide)).2
     (some ["старое", "stale line"])⟩

end UnisonWrap
